import Mathlib

/-!
Verification of the Book Finder component against its specification.

The repository holds two near-duplicate implementations of one React
component: a typed one (`BookFinder.tsx`, here `src/unnamed/part_000`,
embedded in namespace `TSX`) and an untyped one (`src/src/Books.jsx`,
embedded in namespace `JSX`).  Each namespace shallowly embeds the
behavioural content of its file: the filter pipeline of `handleSearch`,
the state transition performed by `handleSearch`, and the informational
content rendered by `BookCard` and `BookModal`.  JavaScript truthiness
and the semantics of `parseInt` are modelled explicitly.
-/

/-- A book record as received from the search API (`interface Book` in
`BookFinder.tsx`; the JSX file uses the same untyped shape).  All fields
except `key` and `title` may be absent, modelled with `Option`. -/
structure Book where
  key : String
  title : String
  author_name : Option (List String) := none
  first_publish_year : Option Int := none
  cover_i : Option Int := none
  ebook_access : Option String := none
  edition_count : Option Int := none
  language : Option (List String) := none
  subject : Option (List String) := none
  publisher : Option (List String) := none
deriving Repr, DecidableEq

/-- The filter criteria object (`interface Filters`): a boolean and two
free-text year bounds kept as strings. -/
structure Filters where
  hasEbook : Bool
  yearFrom : String
  yearTo : String
deriving Repr, DecidableEq

/-- Hexadecimal digit value, as used by JavaScript `parseInt` when the
input carries an `0x`/`0X` prefix. -/
def hexDigitVal (c : Char) : Option Nat :=
  if c.isDigit then some (c.toNat - 48)
  else if 'a' ≤ c ∧ c ≤ 'f' then some (c.toNat - 87)
  else if 'A' ≤ c ∧ c ≤ 'F' then some (c.toNat - 55)
  else none

/-- Decimal digit value. -/
def decDigitVal (c : Char) : Option Nat :=
  if c.isDigit then some (c.toNat - 48) else none

/-- Accumulate the value of the longest leading run of digits recognised
by `dv`; `none` when that run is empty (JavaScript `NaN`). -/
def digitsVal (dv : Char → Option Nat) (base : Nat) : List Char → Option Nat
  | [] => none
  | c :: cs =>
    match dv c with
    | none => none
    | some _ => some (go (c :: cs) 0)
  where
    go : List Char → Nat → Nat
      | [], acc => acc
      | c :: cs, acc =>
        match dv c with
        | none => acc
        | some d => go cs (acc * base + d)

/-- JavaScript `parseInt(s)` (no radix argument): skip leading
whitespace, read an optional sign, then either an `0x`-prefixed
hexadecimal or a decimal run of digits; an empty digit run gives `NaN`,
modelled as `none`.  Trailing garbage after the digits is ignored. -/
def parseIntJS (s : String) : Option Int :=
  let cs := s.toList.dropWhile (fun c => c.isWhitespace)
  let (sign, cs) : Int × List Char :=
    match cs with
    | '-' :: rest => (-1, rest)
    | '+' :: rest => (1, rest)
    | _ => (1, cs)
  let mag : Option Nat :=
    match cs with
    | '0' :: 'x' :: rest => digitsVal hexDigitVal 16 rest
    | '0' :: 'X' :: rest => digitsVal hexDigitVal 16 rest
    | _ => digitsVal decDigitVal 10 cs
  mag.map (fun n => sign * (n : Int))

/-- JavaScript `String.prototype.trim`: drop whitespace from both
ends, modelled on the character list. -/
def trimJS (s : String) : String :=
  String.mk (((s.data.dropWhile Char.isWhitespace).reverse.dropWhile
    Char.isWhitespace).reverse)

/-- JavaScript `String.prototype.toUpperCase` as exercised here (ASCII
language codes), modelled on the character list. -/
def toUpperJS (s : String) : String := String.mk (s.data.map Char.toUpper)

/-- Truthiness of `book.first_publish_year` in JavaScript: the field is
truthy iff it is present and non-zero. -/
def yearTruthy : Option Int → Bool
  | none => false
  | some y => y ≠ 0

/-- The `hasEbook` filter predicate, identical in both files:
`book.ebook_access === 'borrowable' || book.ebook_access === 'public'`. -/
def ebookPass (b : Book) : Bool :=
  b.ebook_access = some "borrowable" || b.ebook_access = some "public"

/-- The `yearFrom` filter predicate with the bound already parsed:
`book.first_publish_year && book.first_publish_year >= parseInt(...)`.
A falsy year (absent or `0`) short-circuits to `false`; a `NaN` bound
makes the comparison `false`. -/
def yearGEPass (bound : Option Int) (b : Book) : Bool :=
  yearTruthy b.first_publish_year &&
    match b.first_publish_year, bound with
    | some y, some n => decide (y ≥ n)
    | _, _ => false

/-- The `yearTo` filter predicate, symmetric to `yearGEPass`:
`book.first_publish_year && book.first_publish_year <= parseInt(...)`. -/
def yearLEPass (bound : Option Int) (b : Book) : Bool :=
  yearTruthy b.first_publish_year &&
    match b.first_publish_year, bound with
    | some y, some n => decide (y ≤ n)
    | _, _ => false

/-- The component state fields, identical in both files: the eight
`useState` hooks of the `BookFinder` component. -/
structure UIState where
  searchQuery : String
  searchType : String
  books : List Book
  loading : Bool
  error : String
  selectedBook : Option Book
  filters : Filters
  showFilters : Bool
deriving Repr, DecidableEq

/-- Outcome of the awaited network interaction inside `handleSearch`:
either the `fetch`/`response.json()` pair throws (`failure`, covering a
network error or a non-parseable body), or it yields a parsed object
whose `docs` field may be absent (`success none`) or an array. -/
inductive FetchResult where
  | failure : FetchResult
  | success : Option (List Book) → FetchResult
deriving Repr, DecidableEq

namespace TSX

/-- The filter pipeline inside `handleSearch` of `BookFinder.tsx`
(lines 62–83): three successive `Array.filter` passes, each guarded by
the truthiness of its criterion (a string is truthy iff non-empty). -/
def applyFilters (f : Filters) (docs : List Book) : List Book :=
  let l1 := if f.hasEbook then docs.filter ebookPass else docs
  let l2 := if f.yearFrom ≠ "" then
      l1.filter (yearGEPass (parseIntJS f.yearFrom)) else l1
  let l3 := if f.yearTo ≠ "" then
      l2.filter (yearLEPass (parseIntJS f.yearTo)) else l2
  l3

/-- The "no results" message set when `data.docs` is absent or empty. -/
def noResultsMsg : String := "No books found. Try a different search term."

/-- The message set by the `catch` branch on a transport failure. -/
def failedMsg : String :=
  "Failed to fetch books. Please check your connection and try again."

/-- `handleSearch` of `BookFinder.tsx` as a state transition: given the
pre-state and the outcome of the network interaction, it returns the
post-state together with a flag saying whether a request was issued.
The guard `if (!searchQuery.trim()) return;` makes the whole call a
no-op on an empty or whitespace-only query; otherwise the handler
clears the error and the book list, runs the filter pipeline on a
non-empty `docs`, sets the appropriate message otherwise, and the
`finally` block clears the loading flag. -/
def handleSearch (s : UIState) (r : FetchResult) : UIState × Bool :=
  if trimJS s.searchQuery = "" then (s, false)
  else
    let s1 := { s with loading := true, error := "", books := [] }
    match r with
    | .failure => ({ s1 with error := failedMsg, loading := false }, true)
    | .success docs =>
      match docs with
      | some ds =>
        if ds.length > 0 then
          ({ s1 with books := applyFilters s.filters ds,
                     loading := false }, true)
        else ({ s1 with error := noResultsMsg, loading := false }, true)
      | none => ({ s1 with error := noResultsMsg, loading := false }, true)

/-- The author line of `BookCard` in `BookFinder.tsx` (line 134):
`book.author_name ? book.author_name.slice(0, 2).join(', ') :
'Unknown Author'` — at most the first two author names. -/
def cardAuthors (b : Book) : String :=
  match b.author_name with
  | some as => String.intercalate ", " (as.take 2)
  | none => "Unknown Author"

/-- The modal's author line (line 180): all author names joined. -/
def modalAuthors (b : Book) : String :=
  match b.author_name with
  | some as => String.intercalate ", " as
  | none => "Unknown Author"

/-- Whether `BookCard` renders the green eBook badge (line 140):
`book.ebook_access !== 'no_ebook'`. -/
def showEbookBadge (b : Book) : Bool :=
  b.ebook_access != some "no_ebook"

/-- The modal's eBook status line (line 200): `Not Available` exactly
when `ebook_access === 'no_ebook'`, otherwise `Available`. -/
def modalEbookStatus (b : Book) : String :=
  if b.ebook_access = some "no_ebook" then "Not Available" else "Available"

/-- The modal's language line (line 195): `book.language ?
book.language.slice(0, 3).join(', ').toUpperCase() : 'N/A'`. -/
def modalLanguage (b : Book) : String :=
  match b.language with
  | some ls => toUpperJS (String.intercalate ", " (ls.take 3))
  | none => "N/A"

/-- The modal's publisher text (lines 218–223): rendered only when
`book.publisher && book.publisher.length > 0`, showing the first three
names joined; `none` means the section is not rendered. -/
def modalPublishers (b : Book) : Option String :=
  match b.publisher with
  | some ps => if ps.length > 0
      then some (String.intercalate ", " (ps.take 3)) else none
  | none => none

end TSX

namespace JSX

/-- The filter pipeline inside `handleSearch` of `Books.jsx`
(lines 38–65); textually the same three guarded `Array.filter` passes
as in the TSX file. -/
def applyFilters (f : Filters) (docs : List Book) : List Book :=
  let l1 := if f.hasEbook then docs.filter ebookPass else docs
  let l2 := if f.yearFrom ≠ "" then
      l1.filter (yearGEPass (parseIntJS f.yearFrom)) else l1
  let l3 := if f.yearTo ≠ "" then
      l2.filter (yearLEPass (parseIntJS f.yearTo)) else l2
  l3

/-- The "no results" message of `Books.jsx`, identical to the TSX one. -/
def noResultsMsg : String := "No books found. Try a different search term."

/-- The transport-failure message of `Books.jsx`; note the shorter
wording than in `BookFinder.tsx`. -/
def failedMsg : String := "Failed to fetch books. Please check your connection."

/-- `handleSearch` of `Books.jsx` (lines 25–74) as a state transition,
structured exactly like the TSX handler; the only behavioural
difference is the transport-failure message text. -/
def handleSearch (s : UIState) (r : FetchResult) : UIState × Bool :=
  if trimJS s.searchQuery = "" then (s, false)
  else
    let s1 := { s with loading := true, error := "", books := [] }
    match r with
    | .failure => ({ s1 with error := failedMsg, loading := false }, true)
    | .success docs =>
      match docs with
      | some ds =>
        if ds.length > 0 then
          ({ s1 with books := applyFilters s.filters ds,
                     loading := false }, true)
        else ({ s1 with error := noResultsMsg, loading := false }, true)
      | none => ({ s1 with error := noResultsMsg, loading := false }, true)

/-- The author line of `BookCard` in `Books.jsx` (line 99):
`book.author_name ? book.author_name.join(", ") : "Unknown Author"` —
all author names, with no `slice(0, 2)`. -/
def cardAuthors (b : Book) : String :=
  match b.author_name with
  | some as => String.intercalate ", " as
  | none => "Unknown Author"

/-- The modal's author line (line 133): all author names joined. -/
def modalAuthors (b : Book) : String :=
  match b.author_name with
  | some as => String.intercalate ", " as
  | none => "Unknown Author"

/-- Whether `BookCard` renders the eBook tag (line 102):
`book.ebook_access !== "no_ebook"`. -/
def showEbookBadge (b : Book) : Bool :=
  b.ebook_access != some "no_ebook"

/-- The modal's eBook status (line 139): `Not Available` exactly when
`ebook_access === "no_ebook"`, otherwise `Available`. -/
def modalEbookStatus (b : Book) : String :=
  if b.ebook_access = some "no_ebook" then "Not Available" else "Available"

/-- The modal's language line (line 138):
`book.language?.join(", ").toUpperCase() || "N/A"` — all codes joined
(no `slice(0, 3)`), and an empty join string, being falsy, also falls
back to `N/A`. -/
def modalLanguage (b : Book) : String :=
  match b.language with
  | none => "N/A"
  | some ls =>
    let j := toUpperJS (String.intercalate ", " ls)
    if j = "" then "N/A" else j

/-- `Books.jsx`'s modal renders no publisher section at all. -/
def modalPublishers (_ : Book) : Option String := none

end JSX

/-- A sample record, used to instantiate universally quantified
theorems at a concrete input. -/
def sampleBook : Book :=
  { key := "/works/OL893415W", title := "Dune",
    author_name := some ["Frank Herbert"],
    first_publish_year := some 1965,
    ebook_access := some "public" }

/-- A record with every optional field absent (in particular no
`ebook_access`). -/
def bareBook : Book := { key := "/works/OL1W", title := "Bare" }

/-- A record whose `ebook_access` is exactly `no_ebook`. -/
def noEbookBook : Book :=
  { key := "/works/OL2W", title := "Paper Only",
    ebook_access := some "no_ebook" }

/-- A record whose `first_publish_year` is present and equal to `0`. -/
def zeroYearBook : Book :=
  { key := "/works/OL4W", title := "Year Zero",
    first_publish_year := some 0,
    ebook_access := some "public" }

/-- A record with three authors, four language codes and a publisher,
exercising the rendering differences between the two files. -/
def richBook : Book :=
  { key := "/works/OL3W", title := "Rich",
    author_name := some ["A", "B", "C"],
    language := some ["eng", "fre", "ger", "spa"],
    publisher := some ["P1"] }

/-- A sample pre-search component state with a non-empty query. -/
def readyState : UIState :=
  { searchQuery := "dune", searchType := "title", books := [],
    loading := false, error := "", selectedBook := none,
    filters := { hasEbook := true, yearFrom := "", yearTo := "" },
    showFilters := false }

/-- A component state whose query is whitespace-only. -/
def blankQueryState : UIState :=
  { readyState with searchQuery := "   " }

/-- Sanity checks of the `parseInt` model on concrete strings. -/
theorem parseIntJS_examples :
    parseIntJS "1990" = some 1990 ∧ parseIntJS "-5" = some (-5) ∧
    parseIntJS "abc" = none ∧ parseIntJS "" = none ∧
    parseIntJS "  12ab" = some 12 ∧ parseIntJS "0x1A" = some 26 := by
  decide

/-- A conditionally applied `Array.filter` pass yields a sublist. -/
theorem condFilter_sublist (p : Book → Bool) (c : Prop) [Decidable c]
    (l : List Book) : (if c then l.filter p else l).Sublist l := by
  split
  · exact List.filter_sublist l
  · exact List.Sublist.refl l

/-- Membership after a conditionally applied `Array.filter` pass. -/
theorem mem_condFilter {p : Book → Bool} {c : Prop} [Decidable c]
    {l : List Book} {b : Book} :
    b ∈ (if c then l.filter p else l) ↔ b ∈ l ∧ (c → p b = true) := by
  by_cases h : c
  · simp [h, List.mem_filter]
  · simp [h]

/-- The TSX filter pipeline always narrows the input list. -/
theorem applyFilters_sublist (f : Filters) (docs : List Book) :
    (TSX.applyFilters f docs).Sublist docs := by
  unfold TSX.applyFilters
  exact (condFilter_sublist _ _ _).trans
    ((condFilter_sublist _ _ _).trans (condFilter_sublist _ _ _))

/-- Membership in the output of the TSX filter pipeline, characterised
by the three guarded predicates. -/
theorem mem_applyFilters {f : Filters} {docs : List Book} {b : Book} :
    b ∈ TSX.applyFilters f docs ↔
      b ∈ docs ∧ (f.hasEbook = true → ebookPass b = true) ∧
      (f.yearFrom ≠ "" → yearGEPass (parseIntJS f.yearFrom) b = true) ∧
      (f.yearTo ≠ "" → yearLEPass (parseIntJS f.yearTo) b = true) := by
  unfold TSX.applyFilters
  simp only [mem_condFilter]
  tauto

/-- The two pipelines are the same function. -/
theorem applyFilters_TSX_eq_JSX (f : Filters) (docs : List Book) :
    TSX.applyFilters f docs = JSX.applyFilters f docs := rfl

/-- The `yearFrom` predicate passes exactly on a present, non-zero
year at least as large as a successfully parsed bound. -/
theorem yearGEPass_true_iff (p : Option Int) (b : Book) :
    yearGEPass p b = true ↔
      ∃ y n, b.first_publish_year = some y ∧ y ≠ 0 ∧ p = some n ∧ n ≤ y := by
  unfold yearGEPass yearTruthy
  cases b.first_publish_year <;> cases p <;> simp

/-- The `yearTo` predicate passes exactly on a present, non-zero year
at most as large as a successfully parsed bound. -/
theorem yearLEPass_true_iff (p : Option Int) (b : Book) :
    yearLEPass p b = true ↔
      ∃ y n, b.first_publish_year = some y ∧ y ≠ 0 ∧ p = some n ∧ y ≤ n := by
  unfold yearLEPass yearTruthy
  cases b.first_publish_year <;> cases p <;> simp

/-- A `NaN` bound (failed parse) makes the `yearFrom` predicate reject
every record. -/
theorem yearGEPass_none (b : Book) : yearGEPass none b = false := by
  unfold yearGEPass yearTruthy
  cases b.first_publish_year <;> simp

/-- A `NaN` bound (failed parse) makes the `yearTo` predicate reject
every record. -/
theorem yearLEPass_none (b : Book) : yearLEPass none b = false := by
  unfold yearLEPass yearTruthy
  cases b.first_publish_year <;> simp

/-- C1: false as stated — the two implementations do not render the
same informational content.  On `richBook` the TSX card shows only the
first two author names while the JSX card shows all three, the modal
language displays differ (first three codes vs. all four), the TSX
modal shows a publisher section the JSX modal lacks, and the
transport-failure message texts differ. -/
theorem C1_rendering_counterexample :
    TSX.cardAuthors richBook ≠ JSX.cardAuthors richBook ∧
    TSX.modalLanguage richBook ≠ JSX.modalLanguage richBook ∧
    TSX.modalPublishers richBook ≠ JSX.modalPublishers richBook ∧
    TSX.failedMsg ≠ JSX.failedMsg := by
  refine ⟨by decide, by decide, by decide, by decide⟩

/-- C1 (amended): the two implementations compute the same filtered
result set for every criteria and input list, and agree on the "no
results" message text, the eBook badge condition, the modal
availability text and the modal author list; they differ in the card
author display, the modal language display, the publisher display and
the transport-failure message text. -/
theorem C1_behaviour_equivalence :
    (∀ f docs, TSX.applyFilters f docs = JSX.applyFilters f docs) ∧
    TSX.noResultsMsg = JSX.noResultsMsg ∧
    (∀ b, TSX.showEbookBadge b = JSX.showEbookBadge b ∧
      TSX.modalEbookStatus b = JSX.modalEbookStatus b ∧
      TSX.modalAuthors b = JSX.modalAuthors b) :=
  ⟨fun f docs => applyFilters_TSX_eq_JSX f docs, rfl,
   fun _ => ⟨rfl, rfl, rfl⟩⟩

/-- C2: in both implementations the filter stage output is a sublist
of the input for every criteria, and with no filter active (hasEbook
false, both year strings empty) the output is the input unchanged. -/
theorem C2_filter_narrowing (f : Filters) (docs : List Book) :
    (TSX.applyFilters f docs).Sublist docs ∧
    (JSX.applyFilters f docs).Sublist docs ∧
    (f.hasEbook = false → f.yearFrom = "" → f.yearTo = "" →
      TSX.applyFilters f docs = docs ∧ JSX.applyFilters f docs = docs) := by
  refine ⟨applyFilters_sublist f docs,
    applyFilters_TSX_eq_JSX f docs ▸ applyFilters_sublist f docs, ?_⟩
  intro h1 h2 h3
  have ht : TSX.applyFilters f docs = docs := by
    unfold TSX.applyFilters
    simp [h1, h2, h3]
  exact ⟨ht, applyFilters_TSX_eq_JSX f docs ▸ ht⟩

/-- C2 witness: the no-filter criteria on a one-record list. -/
theorem C2_witness :
    (TSX.applyFilters ⟨false, "", ""⟩ [sampleBook]).Sublist [sampleBook] ∧
    TSX.applyFilters ⟨false, "", ""⟩ [sampleBook] = [sampleBook] :=
  ⟨(C2_filter_narrowing ⟨false, "", ""⟩ [sampleBook]).1,
   ((C2_filter_narrowing ⟨false, "", ""⟩ [sampleBook]).2.2 rfl rfl rfl).1⟩

/-- C3: with the hasEbook filter active and no year filter, both
pipelines retain a record iff its `ebook_access` is exactly
`borrowable` or exactly `public`; an absent `ebook_access` fails the
predicate. -/
theorem C3_hasEbook_allowlist (docs : List Book) (b : Book) :
    (b ∈ TSX.applyFilters ⟨true, "", ""⟩ docs ↔
      b ∈ docs ∧ (b.ebook_access = some "borrowable" ∨
        b.ebook_access = some "public")) ∧
    (b ∈ JSX.applyFilters ⟨true, "", ""⟩ docs ↔
      b ∈ docs ∧ (b.ebook_access = some "borrowable" ∨
        b.ebook_access = some "public")) ∧
    (b.ebook_access = none → ebookPass b = false) := by
  have hp : ebookPass b = true ↔
      (b.ebook_access = some "borrowable" ∨
        b.ebook_access = some "public") := by
    unfold ebookPass
    simp
  refine ⟨?_, ?_, ?_⟩
  · rw [mem_applyFilters]
    simp [hp]
  · rw [← applyFilters_TSX_eq_JSX, mem_applyFilters]
    simp [hp]
  · intro h
    unfold ebookPass
    simp [h]

/-- C3 witness: a `public` record is retained, and a record with no
`ebook_access` fails the predicate. -/
theorem C3_witness :
    sampleBook ∈ TSX.applyFilters ⟨true, "", ""⟩ [sampleBook] ∧
    ebookPass bareBook = false :=
  ⟨(C3_hasEbook_allowlist [sampleBook] sampleBook).1.mpr
      ⟨by decide, Or.inr (by decide)⟩,
   (C3_hasEbook_allowlist [bareBook] bareBook).2.2 rfl⟩

/-- C4: a record passes an active year filter only with a present year
within the parsed inclusive bound; a record lacking the year fails
either year predicate; and inverted numeric bounds with both filters
active empty the result in both implementations. -/
theorem C4_year_bounds (p : Option Int) (b : Book) (f : Filters)
    (docs : List Book) (nf nt : Int) :
    (yearGEPass p b = true →
      ∃ y n, b.first_publish_year = some y ∧ p = some n ∧ n ≤ y) ∧
    (yearLEPass p b = true →
      ∃ y n, b.first_publish_year = some y ∧ p = some n ∧ y ≤ n) ∧
    (b.first_publish_year = none →
      yearGEPass p b = false ∧ yearLEPass p b = false) ∧
    (parseIntJS f.yearFrom = some nf → parseIntJS f.yearTo = some nt →
      nt < nf → f.yearFrom ≠ "" → f.yearTo ≠ "" →
      TSX.applyFilters f docs = [] ∧ JSX.applyFilters f docs = []) := by
  refine ⟨?_, ?_, ?_, ?_⟩
  · intro hp
    obtain ⟨y, n, hy, _, hn, hny⟩ := (yearGEPass_true_iff p b).mp hp
    exact ⟨y, n, hy, hn, hny⟩
  · intro hp
    obtain ⟨y, n, hy, _, hn, hny⟩ := (yearLEPass_true_iff p b).mp hp
    exact ⟨y, n, hy, hn, hny⟩
  · intro hnone
    unfold yearGEPass yearLEPass yearTruthy
    rw [hnone]
    simp
  · intro h1 h2 h3 h4 h5
    have ht : TSX.applyFilters f docs = [] := by
      rw [List.eq_nil_iff_forall_not_mem]
      intro b' hb
      rw [mem_applyFilters] at hb
      obtain ⟨y, n, hy, _, hn, hny⟩ :=
        (yearGEPass_true_iff _ b').mp (hb.2.2.1 h4)
      obtain ⟨y', n', hy', _, hn', hn'y⟩ :=
        (yearLEPass_true_iff _ b').mp (hb.2.2.2 h5)
      obtain rfl : y = y' := Option.some_injective _ (hy.symm.trans hy')
      obtain rfl : n = nf := Option.some_injective _ (hn.symm.trans h1)
      obtain rfl : n' = nt := Option.some_injective _ (hn'.symm.trans h2)
      omega
    exact ⟨ht, applyFilters_TSX_eq_JSX f docs ▸ ht⟩

/-- C4 witness: inverted bounds 1990–1980 empty a one-record list, and
a record without a year fails the predicates. -/
theorem C4_witness :
    TSX.applyFilters ⟨false, "1990", "1980"⟩ [sampleBook] = [] ∧
    yearGEPass (some 1900) bareBook = false ∧
    yearLEPass (some 1900) bareBook = false :=
  ⟨((C4_year_bounds (some 1900) bareBook ⟨false, "1990", "1980"⟩
      [sampleBook] 1990 1980).2.2.2 (by decide) (by decide) (by decide)
      (by decide) (by decide)).1,
   (C4_year_bounds (some 1900) bareBook ⟨false, "1990", "1980"⟩
      [sampleBook] 1990 1980).2.2.1 rfl⟩

/-- C5: a non-empty year bound whose parse fails (`NaN`) makes the
active year filter exclude every record in both implementations. -/
theorem C5_nan_excludes_all (f : Filters) (docs : List Book) :
    (f.yearFrom ≠ "" → parseIntJS f.yearFrom = none →
      TSX.applyFilters f docs = [] ∧ JSX.applyFilters f docs = []) ∧
    (f.yearTo ≠ "" → parseIntJS f.yearTo = none →
      TSX.applyFilters f docs = [] ∧ JSX.applyFilters f docs = []) := by
  constructor
  · intro h1 h2
    have ht : TSX.applyFilters f docs = [] := by
      rw [List.eq_nil_iff_forall_not_mem]
      intro b hb
      rw [mem_applyFilters] at hb
      have hp := hb.2.2.1 h1
      rw [h2, yearGEPass_none] at hp
      exact Bool.false_ne_true hp
    exact ⟨ht, applyFilters_TSX_eq_JSX f docs ▸ ht⟩
  · intro h1 h2
    have ht : TSX.applyFilters f docs = [] := by
      rw [List.eq_nil_iff_forall_not_mem]
      intro b hb
      rw [mem_applyFilters] at hb
      have hp := hb.2.2.2 h1
      rw [h2, yearLEPass_none] at hp
      exact Bool.false_ne_true hp
    exact ⟨ht, applyFilters_TSX_eq_JSX f docs ▸ ht⟩

/-- C5 witness: the non-numeric bound `abc` empties a one-record
list. -/
theorem C5_witness :
    TSX.applyFilters ⟨false, "abc", ""⟩ [sampleBook] = [] :=
  ((C5_nan_excludes_all ⟨false, "abc", ""⟩ [sampleBook]).1 (by decide)
    (by decide)).1

/-- C6: an empty or whitespace-only query makes `handleSearch` a
complete no-op in both files: no request is issued and every state
field is unchanged. -/
theorem C6_blank_query_noop (s : UIState) (r : FetchResult)
    (h : trimJS s.searchQuery = "") :
    TSX.handleSearch s r = (s, false) ∧
    JSX.handleSearch s r = (s, false) := by
  unfold TSX.handleSearch JSX.handleSearch
  simp [h]

/-- C6 witness: a whitespace-only query with a failing fetch outcome
still changes nothing. -/
theorem C6_witness :
    TSX.handleSearch blankQueryState .failure = (blankQueryState, false) ∧
    JSX.handleSearch blankQueryState .failure = (blankQueryState, false) :=
  C6_blank_query_noop blankQueryState .failure (by decide)

/-- C7: for a non-blank query exactly two error outcomes exist: a
transport failure sets the "failed" message, an absent or empty `docs`
sets the "no results" message; in both the result list is empty and
the loading flag cleared, and the two messages differ. -/
theorem C7_error_outcomes (s : UIState) (h : trimJS s.searchQuery ≠ "") :
    ((TSX.handleSearch s .failure).1.error = TSX.failedMsg ∧
     (TSX.handleSearch s .failure).1.books = [] ∧
     (TSX.handleSearch s .failure).1.loading = false) ∧
    (∀ d, d = none ∨ d = some ([] : List Book) →
      (TSX.handleSearch s (.success d)).1.error = TSX.noResultsMsg ∧
      (TSX.handleSearch s (.success d)).1.books = [] ∧
      (TSX.handleSearch s (.success d)).1.loading = false) ∧
    TSX.failedMsg ≠ TSX.noResultsMsg := by
  refine ⟨?_, ?_, by decide⟩
  · unfold TSX.handleSearch
    simp [h]
  · rintro d (rfl | rfl) <;>
      (unfold TSX.handleSearch; simp [h])

/-- C7 witness: concrete failure and empty-docs outcomes from the
sample ready state. -/
theorem C7_witness :
    (TSX.handleSearch readyState .failure).1.error = TSX.failedMsg ∧
    (TSX.handleSearch readyState (.success (some []))).1.error =
      TSX.noResultsMsg :=
  ⟨(C7_error_outcomes readyState (by decide)).1.1,
   ((C7_error_outcomes readyState (by decide)).2.1 (some [])
     (Or.inr rfl)).1⟩

/-- C8: the card badge appears iff `ebook_access` is not exactly
`no_ebook` (an absent field gets the badge), the modal availability is
`Available` under exactly the same condition, and this condition is
strictly looser than the filter stage allow-list. -/
theorem C8_badge_and_availability (b : Book) :
    (TSX.showEbookBadge b = true ↔ b.ebook_access ≠ some "no_ebook") ∧
    (JSX.showEbookBadge b = true ↔ b.ebook_access ≠ some "no_ebook") ∧
    (b.ebook_access = none → TSX.showEbookBadge b = true) ∧
    (TSX.modalEbookStatus b = "Available" ↔
      b.ebook_access ≠ some "no_ebook") ∧
    (JSX.modalEbookStatus b = "Available" ↔
      b.ebook_access ≠ some "no_ebook") ∧
    (ebookPass b = true → TSX.showEbookBadge b = true) ∧
    (∃ c : Book, TSX.showEbookBadge c = true ∧ ebookPass c = false) := by
  refine ⟨?_, ?_, ?_, ?_, ?_, ?_, ⟨bareBook, by decide, by decide⟩⟩
  · unfold TSX.showEbookBadge
    simp
  · unfold JSX.showEbookBadge
    simp
  · intro hnone
    unfold TSX.showEbookBadge
    rw [hnone]
    decide
  · unfold TSX.modalEbookStatus
    by_cases hc : b.ebook_access = some "no_ebook" <;> simp [hc]
  · unfold JSX.modalEbookStatus
    by_cases hc : b.ebook_access = some "no_ebook" <;> simp [hc]
  · intro hp
    simp only [ebookPass, Bool.or_eq_true, decide_eq_true_eq] at hp
    unfold TSX.showEbookBadge
    rcases hp with hp | hp <;> rw [hp] <;> decide

/-- C8 witness: a record with no `ebook_access` gets the badge, and a
`public` record passing the filter also gets it. -/
theorem C8_witness :
    TSX.showEbookBadge bareBook = true ∧
    TSX.showEbookBadge sampleBook = true :=
  ⟨(C8_badge_and_availability bareBook).2.2.1 rfl,
   (C8_badge_and_availability sampleBook).2.2.2.2.2.1 (by decide)⟩

/-- C9: a record whose `first_publish_year` is present but equal to 0
fails both year predicates and is dropped from both pipelines whenever
a year filter is active, even when the bound itself admits 0. -/
theorem C9_zero_year_dropped (f : Filters) (docs : List Book) (b : Book)
    (hy : b.first_publish_year = some 0)
    (hf : f.yearFrom ≠ "" ∨ f.yearTo ≠ "") :
    yearGEPass (parseIntJS f.yearFrom) b = false ∧
    yearLEPass (parseIntJS f.yearTo) b = false ∧
    b ∉ TSX.applyFilters f docs ∧ b ∉ JSX.applyFilters f docs := by
  have hge : ∀ p, yearGEPass p b = false := by
    intro p
    unfold yearGEPass yearTruthy
    rw [hy]
    cases p <;> simp
  have hle : ∀ p, yearLEPass p b = false := by
    intro p
    unfold yearLEPass yearTruthy
    rw [hy]
    cases p <;> simp
  have ht : b ∉ TSX.applyFilters f docs := by
    intro hmem
    rw [mem_applyFilters] at hmem
    rcases hf with hf | hf
    · have hp := hmem.2.2.1 hf
      rw [hge] at hp
      exact Bool.false_ne_true hp
    · have hp := hmem.2.2.2 hf
      rw [hle] at hp
      exact Bool.false_ne_true hp
  exact ⟨hge _, hle _, ht, applyFilters_TSX_eq_JSX f docs ▸ ht⟩

/-- C9 witness: year 0 is dropped by `yearFrom = "-5"` although the
parsed bound `-5` admits 0. -/
theorem C9_witness :
    parseIntJS "-5" = some (-5) ∧ (-5 : Int) ≤ 0 ∧
    zeroYearBook ∉ TSX.applyFilters ⟨false, "-5", ""⟩ [zeroYearBook] :=
  ⟨by decide, by decide,
   (C9_zero_year_dropped ⟨false, "-5", ""⟩ [zeroYearBook] zeroYearBook rfl
     (Or.inl (by decide))).2.2.1⟩

/-- C10: a non-empty `docs` whose records are all filtered out ends
the search with an empty result list, an empty error message (neither
the "no results" nor the "failed" text) and the loading flag cleared,
in both implementations. -/
theorem C10_filtered_to_empty_silent (s : UIState) (ds : List Book)
    (h : trimJS s.searchQuery ≠ "") (hne : ds ≠ [])
    (hf : TSX.applyFilters s.filters ds = []) :
    (TSX.handleSearch s (.success (some ds))).1.books = [] ∧
    (TSX.handleSearch s (.success (some ds))).1.error = "" ∧
    (TSX.handleSearch s (.success (some ds))).1.loading = false ∧
    (JSX.handleSearch s (.success (some ds))).1.books = [] ∧
    (JSX.handleSearch s (.success (some ds))).1.error = "" ∧
    (JSX.handleSearch s (.success (some ds))).1.loading = false := by
  have hlen : 0 < ds.length := List.length_pos.mpr hne
  have hj : JSX.applyFilters s.filters ds = [] :=
    applyFilters_TSX_eq_JSX s.filters ds ▸ hf
  unfold TSX.handleSearch JSX.handleSearch
  simp [h, hlen, hf, hj]

/-- C10 witness: one `no_ebook` record against the active hasEbook
filter of the ready state. -/
theorem C10_witness :
    (TSX.handleSearch readyState (.success (some [noEbookBook]))).1.books
      = [] ∧
    (TSX.handleSearch readyState (.success (some [noEbookBook]))).1.error
      = "" :=
  ⟨(C10_filtered_to_empty_silent readyState [noEbookBook] (by decide)
      (by decide) (by decide)).1,
   (C10_filtered_to_empty_silent readyState [noEbookBook] (by decide)
      (by decide) (by decide)).2.1⟩
